import Mathlib

/-!
Verification of the Grocy calendar platform
(`custom_components/grocy/calendar.py`).

The module maps five heterogeneous Grocy domain objects (chores,
batteries, meal-plan entries, products, tasks) into normalized calendar
events and exposes them through a calendar entity adapter that reads the
coordinator's cached data.

Timestamps are modelled as integer minutes since an epoch together with a
flag recording whether the default time zone has been attached (Python's
naive vs zone-aware datetimes); calendar dates are integer day numbers.
-/

namespace Grocy

/-- A wall-clock timestamp: minutes since the epoch, plus whether the
default time zone is attached (`tzinfo` present or not). -/
structure DateTime where
  time : Int
  hasTz : Bool
deriving DecidableEq, Repr

/-- `dt.replace(tzinfo=DEFAULT_TIME_ZONE)`: attach the default zone, keep
the wall-clock time. -/
def DateTime.replaceTz (d : DateTime) : DateTime :=
  ⟨d.time, true⟩

/-- `dt - datetime.timedelta(...)` with the delta given in minutes; the
`tzinfo` of the operand is preserved. -/
def DateTime.subMinutes (d : DateTime) (m : Int) : DateTime :=
  ⟨d.time - m, d.hasTz⟩

/-- `dt.date()`: the calendar day a timestamp falls on (floor division of
minutes by the 1440 minutes of a day). -/
def DateTime.date (d : DateTime) : Int :=
  Int.fdiv d.time 1440

/-- A recipe as referenced from a meal plan entry: name and optional
description (pygrocy `RecipeItem`). -/
structure Recipe where
  name : String
  description : Option String
deriving DecidableEq, Repr

/-- Modelled from the spec: the meal-plan record wrapped by
`MealPlanItemWrapper` (the repository's `helpers` module is not in scope);
per the spec it wraps a day (date) and a recipe, with an id. -/
structure MealPlan where
  id : Int
  day : Option Int
  recipe : Recipe
deriving DecidableEq, Repr

/-- The runtime variants the mapper can receive: the five supported kinds
(pygrocy `Chore`, `Battery`, the repository's `MealPlanItemWrapper`,
pygrocy `Product`, pygrocy `Task`) plus a constructor standing for an item
of any other runtime type (Python being dynamically typed, anything can be
passed); `notes` on a product records data the underlying product may
carry but the mapper never reads. -/
inductive Item where
  | chore (id : Int) (name : String) (description : Option String)
      (next_estimated_execution_time : Option DateTime)
  | battery (id : Int) (name : String) (description : Option String)
      (next_estimated_charge_time : Option DateTime)
  | mealPlanItemWrapper (meal_plan : MealPlan)
  | product (id : Int) (name : String) (notes : Option String)
      (best_before_date : Option Int)
  | task (id : Int) (name : String) (description : Option String)
      (due_date : Option Int)
  | unrecognized (typeName : String)
deriving DecidableEq, Repr

/-- Python's `type(item)` rendered as a type name; the mapper's `item`
argument may also be `None` (Python type `NoneType`). -/
def pyTypeName : Option Item → String
  | Option.none => "NoneType"
  | some (.chore _ _ _ _) => "Chore"
  | some (.battery _ _ _ _) => "Battery"
  | some (.mealPlanItemWrapper _) => "MealPlanItemWrapper"
  | some (.product _ _ _ _) => "Product"
  | some (.task _ _ _ _) => "Task"
  | some (.unrecognized t) => t

/-- Python `s or None` on an optional string: `None` stays `None`, the
empty string collapses to `None`, anything else is kept. -/
def pyStrOrNone : Option String → Option String
  | Option.none => Option.none
  | some s => if s = "" then Option.none else some s

/-- A calendar event boundary: either a zone-carrying timestamp
(chore/battery events) or a bare calendar date (meal plan, product, task
events). -/
inductive EventTime where
  | stamp (t : DateTime)
  | date (d : Int)
deriving DecidableEq, Repr

/-- Strict order on event boundaries. Python refuses to compare a datetime
with a date; the mapper only ever compares boundaries of the same kind, so
the mixed cases are modelled as false. -/
def EventTime.lt : EventTime → EventTime → Bool
  | .stamp a, .stamp b => decide (a.time < b.time)
  | .date a, .date b => decide (a < b)
  | _, _ => false

/-- The normalized calendar event handed to the host platform
(`homeassistant.components.calendar.CalendarEvent` as this module fills
it in). -/
structure CalendarEvent where
  uid : String
  summary : String
  start : EventTime
  «end» : EventTime
  description : Option String
  location : Option String
  recurrence_id : Option String
  rrule : Option String
deriving DecidableEq, Repr

/-- `GrocyCalendarEvent.__init__`: map one cached item to a calendar
event. `nowT` stands for the platform clock `now()` (a zone-aware
timestamp); an unsupported item raises `NotImplementedError` with the
message built from the category key and the item's runtime type, modelled
as `Except.error`. -/
def GrocyCalendarEvent (nowT : DateTime) (item : Option Item) (key : String) :
    Except String CalendarEvent :=
  match item with
  | some (.chore id name description next_estimated_execution_time) =>
    let e : DateTime :=
      match next_estimated_execution_time with
      | some t => t.replaceTz
      | Option.none => nowT
    let s : DateTime := e.subMinutes 60
    Except.ok ⟨toString id, name, .stamp s, .stamp e, pyStrOrNone description,
      Option.none, Option.none, Option.none⟩
  | some (.battery id name description next_estimated_charge_time) =>
    let e : DateTime :=
      match next_estimated_charge_time with
      | some t => t.replaceTz
      | Option.none => nowT
    let s : DateTime := e.subMinutes 60
    Except.ok ⟨toString id, name, .stamp s, .stamp e, pyStrOrNone description,
      Option.none, Option.none, Option.none⟩
  | some (.mealPlanItemWrapper meal_plan) =>
    let s : Int :=
      match meal_plan.day with
      | some d => d
      | Option.none => nowT.date
    let e : Int := s + 1
    Except.ok ⟨toString meal_plan.id, meal_plan.recipe.name, .date s, .date e,
      pyStrOrNone meal_plan.recipe.description, Option.none, Option.none, Option.none⟩
  | some (.product id name _notes best_before_date) =>
    let s : Int :=
      match best_before_date with
      | some d => d
      | Option.none => nowT.date
    let e : Int := s + 1
    Except.ok ⟨toString id, name, .date s, .date e, Option.none,
      Option.none, Option.none, Option.none⟩
  | some (.task id name description due_date) =>
    let s : Int :=
      match due_date with
      | some d => d
      | Option.none => nowT.date
    let e : Int := s + 1
    Except.ok ⟨toString id, name, .date s, .date e, pyStrOrNone description,
      Option.none, Option.none, Option.none⟩
  | other => Except.error (key ++ " => " ++ pyTypeName other)

/-- True for the five supported variant kinds. -/
def Item.isSupported : Item → Bool
  | .unrecognized _ => false
  | _ => true

/-- The id of the source item: the wrapped plan's id for a meal plan
entry, the item's own id otherwise (0 for an unrecognized item, which has
no id). -/
def Item.sourceId : Item → Int
  | .chore id _ _ _ => id
  | .battery id _ _ _ => id
  | .mealPlanItemWrapper meal_plan => meal_plan.id
  | .product id _ _ _ => id
  | .task id _ _ _ => id
  | .unrecognized _ => 0

/-- The calendar adapter: its `entity_description.key` together with its
view of the coordinator's cache. Modelled from the spec: the coordinator
lives outside this module and exposes
`coordinator.data[categoryKey] -> list<variant> | none`; list entries may
themselves be null. -/
structure GrocyCalendarEntity where
  coordinatorData : String → Option (List (Option Item))
  key : String

/-- The `event` property: the next upcoming event, hard-coded to `None`
(the real logic is commented out in the source). -/
def GrocyCalendarEntity.event (_e : GrocyCalendarEntity) : Option CalendarEvent :=
  Option.none

/-- `async_get_events`: read the cached list for this adapter's category
key; a missing or empty list yields `[]`, otherwise every non-null item is
mapped through `GrocyCalendarEvent` in order. The requested window
`_start_date`/`_end_date` is never read. A mapping failure propagates
(nothing is caught here). -/
def GrocyCalendarEntity.async_get_events (e : GrocyCalendarEntity)
    (nowT : DateTime) (_start_date _end_date : DateTime) :
    Except String (List CalendarEvent) :=
  match e.coordinatorData e.key with
  | Option.none => Except.ok []
  | some entity_data =>
    if entity_data.isEmpty then Except.ok []
    else (entity_data.filter fun i => i.isSome).mapM
      fun i => GrocyCalendarEvent nowT i e.key

/-- C9: the adapter's `event` property returns none for every adapter and
every cache state, regardless of cache contents. -/
theorem event_property_always_none (e : GrocyCalendarEntity) :
    e.event = Option.none := rfl

/-- C10: mapping a null item (the default for the mapper's `item`
parameter) falls through every variant branch and produces the
unsupported-item-type error whose message names the category key and the
runtime type `NoneType`; in particular it never yields an event. -/
theorem mapper_null_item_errors (nowT : DateTime) (key : String) :
    GrocyCalendarEvent nowT Option.none key =
      Except.error (key ++ " => " ++ "NoneType") := rfl

/-- C1: for every item of one of the five supported variant kinds, the
mapper succeeds and the produced event has `end` strictly greater than
`start` and `uid` equal to the stringified source id (the meal-plan id for
a meal plan entry). -/
theorem mapper_supported_end_gt_start_uid (nowT : DateTime) (key : String)
    (i : Item) (h : i.isSupported = true) :
    ∃ ev, GrocyCalendarEvent nowT (some i) key = Except.ok ev ∧
      EventTime.lt ev.start ev.«end» = true ∧
      ev.uid = toString i.sourceId := by
  cases i with
  | chore id name description t =>
    refine ⟨_, rfl, ?_, rfl⟩
    cases t <;>
      simp [GrocyCalendarEvent, EventTime.lt, DateTime.subMinutes, DateTime.replaceTz]
  | battery id name description t =>
    refine ⟨_, rfl, ?_, rfl⟩
    cases t <;>
      simp [GrocyCalendarEvent, EventTime.lt, DateTime.subMinutes, DateTime.replaceTz]
  | mealPlanItemWrapper mp =>
    refine ⟨_, rfl, ?_, rfl⟩
    rcases mp with ⟨mid, day, r⟩
    cases day <;> simp [GrocyCalendarEvent, EventTime.lt]
  | product id name notes bbd =>
    refine ⟨_, rfl, ?_, rfl⟩
    cases bbd <;> simp [GrocyCalendarEvent, EventTime.lt]
  | task id name description due =>
    refine ⟨_, rfl, ?_, rfl⟩
    cases due <;> simp [GrocyCalendarEvent, EventTime.lt]
  | unrecognized t => simp [Item.isSupported] at h

/-- Witness for C1 at a concrete chore. -/
theorem mapper_supported_end_gt_start_uid_witness :
    (Item.chore 3 "Mow the lawn" Option.none Option.none).isSupported = true ∧
    ∃ ev, GrocyCalendarEvent ⟨1000, true⟩
        (some (Item.chore 3 "Mow the lawn" Option.none Option.none)) "chores" =
          Except.ok ev ∧
      EventTime.lt ev.start ev.«end» = true ∧
      ev.uid = toString (Item.chore 3 "Mow the lawn" Option.none Option.none).sourceId :=
  ⟨by decide,
    mapper_supported_end_gt_start_uid ⟨1000, true⟩ "chores" _ (by decide)⟩

/-- C2: mapping a chore whose next-execution timestamp T is present gives
`end = T` with the default time zone attached and `start = T` minus one
hour; with the timestamp absent, `end = now()` and `start = end` minus one
hour; and the same holds for a battery with its next-charge timestamp. -/
theorem mapper_chore_battery_times (nowT T : DateTime) (key : String)
    (id : Int) (name : String) (description : Option String) :
    (∃ ev, GrocyCalendarEvent nowT (some (.chore id name description (some T))) key =
        Except.ok ev ∧
      ev.«end» = .stamp ⟨T.time, true⟩ ∧ ev.start = .stamp ⟨T.time - 60, true⟩) ∧
    (∃ ev, GrocyCalendarEvent nowT (some (.chore id name description Option.none)) key =
        Except.ok ev ∧
      ev.«end» = .stamp nowT ∧ ev.start = .stamp ⟨nowT.time - 60, nowT.hasTz⟩) ∧
    (∃ ev, GrocyCalendarEvent nowT (some (.battery id name description (some T))) key =
        Except.ok ev ∧
      ev.«end» = .stamp ⟨T.time, true⟩ ∧ ev.start = .stamp ⟨T.time - 60, true⟩) ∧
    (∃ ev, GrocyCalendarEvent nowT (some (.battery id name description Option.none)) key =
        Except.ok ev ∧
      ev.«end» = .stamp nowT ∧ ev.start = .stamp ⟨nowT.time - 60, nowT.hasTz⟩) :=
  ⟨⟨_, rfl, rfl, rfl⟩, ⟨_, rfl, rfl, rfl⟩, ⟨_, rfl, rfl, rfl⟩, ⟨_, rfl, rfl, rfl⟩⟩

/-- C3 counterexample: with the clock at minute 4320 (day 3), a product
with no best-before date does not map to an event with `end = today` and
`start = today` minus one day — the code puts `start = today` and
`end = today` plus one day instead. -/
theorem date_only_absent_date_counterexample :
    ∃ ev, GrocyCalendarEvent ⟨4320, true⟩
        (some (.product 7 "Milk" Option.none Option.none)) "expiring_products" =
          Except.ok ev ∧
      ¬(ev.«end» = .date 3 ∧ ev.start = .date 2) :=
  ⟨_, rfl, by decide⟩

/-- C3 amended: for every date-only item (meal plan entry, product, task)
whose source date field is absent, the mapped event's `start` defaults to
today and its `end` is exactly one day after `start` (start = today,
end = today plus one day). -/
theorem date_only_absent_date_defaults (nowT : DateTime) (key : String)
    (id : Int) (name rname : String) (notes description rdesc : Option String) :
    (∃ ev, GrocyCalendarEvent nowT
        (some (.mealPlanItemWrapper ⟨id, Option.none, ⟨rname, rdesc⟩⟩)) key =
          Except.ok ev ∧
      ev.start = .date nowT.date ∧ ev.«end» = .date (nowT.date + 1)) ∧
    (∃ ev, GrocyCalendarEvent nowT
        (some (.product id name notes Option.none)) key = Except.ok ev ∧
      ev.start = .date nowT.date ∧ ev.«end» = .date (nowT.date + 1)) ∧
    (∃ ev, GrocyCalendarEvent nowT
        (some (.task id name description Option.none)) key = Except.ok ev ∧
      ev.start = .date nowT.date ∧ ev.«end» = .date (nowT.date + 1)) :=
  ⟨⟨_, rfl, rfl, rfl⟩, ⟨_, rfl, rfl, rfl⟩, ⟨_, rfl, rfl, rfl⟩⟩

/-- C4: `async_get_events` on an adapter whose category key is absent from
the coordinator's cache returns the empty list — never none and never an
error. -/
theorem get_events_missing_category_empty (e : GrocyCalendarEntity)
    (nowT sd ed : DateTime) (h : e.coordinatorData e.key = Option.none) :
    e.async_get_events nowT sd ed = Except.ok [] := by
  unfold GrocyCalendarEntity.async_get_events
  rw [h]

/-- Witness for C4 at a concrete adapter with an empty cache. -/
theorem get_events_missing_category_empty_witness :
    (GrocyCalendarEntity.mk (fun _ => Option.none) "chores").async_get_events
        ⟨0, true⟩ ⟨0, true⟩ ⟨100, true⟩ = Except.ok [] :=
  get_events_missing_category_empty
    (GrocyCalendarEntity.mk (fun _ => Option.none) "chores")
    ⟨0, true⟩ ⟨0, true⟩ ⟨100, true⟩ rfl

/-- C5: mapping a meal plan entry with plan day D yields an event with
`start = D`, `end = D` plus one day, title equal to the recipe's name and
description equal to the recipe's description, collapsed to none when it
is empty or absent (Python `x or None`, here `pyStrOrNone`). -/
theorem mapper_meal_plan_with_day (nowT : DateTime) (key : String)
    (id D : Int) (rname : String) (rdesc : Option String) :
    GrocyCalendarEvent nowT
        (some (.mealPlanItemWrapper ⟨id, some D, ⟨rname, rdesc⟩⟩)) key =
      Except.ok ⟨toString id, rname, .date D, .date (D + 1), pyStrOrNone rdesc,
        Option.none, Option.none, Option.none⟩ := rfl

/-- C6: mapping a product with no best-before date yields `start = today`,
`end = today` plus one day; and the mapped description is none for every
product, including products carrying notes data and regardless of the
best-before date. -/
theorem mapper_product_defaults_no_description (nowT : DateTime) (key : String)
    (id : Int) (name : String) (notes : Option String) :
    GrocyCalendarEvent nowT (some (.product id name notes Option.none)) key =
      Except.ok ⟨toString id, name, .date nowT.date, .date (nowT.date + 1),
        Option.none, Option.none, Option.none, Option.none⟩ ∧
    ∀ bbd, ∃ ev,
      GrocyCalendarEvent nowT (some (.product id name notes bbd)) key =
        Except.ok ev ∧ ev.description = Option.none := by
  refine ⟨rfl, fun bbd => ?_⟩
  cases bbd <;> exact ⟨_, rfl, rfl⟩

/-- C7: for an item whose runtime type is none of the five supported
kinds, the mapper fails with the unsupported-item-type error whose message
names both the category key and the runtime type; and the error is not
caught inside the module — an adapter whose cached list holds such an item
propagates the very same error from `async_get_events`. -/
theorem mapper_unrecognized_errors (nowT sd ed : DateTime) (key tn : String)
    (rest : List (Option Item)) :
    GrocyCalendarEvent nowT (some (.unrecognized tn)) key =
      Except.error (key ++ " => " ++ tn) ∧
    (GrocyCalendarEntity.mk (fun _ => some (some (.unrecognized tn) :: rest)) key).async_get_events
        nowT sd ed = Except.error (key ++ " => " ++ tn) := by
  refine ⟨rfl, ?_⟩
  simp only [GrocyCalendarEntity.async_get_events, List.isEmpty_cons,
    List.filter_cons, Option.isSome_some, if_pos, List.mapM_cons]
  rfl

/-- C8: for every cached list under the adapter's category key,
`async_get_events` is exactly the in-order mapping of the list's non-null
items through the mapper (so order is preserved and a per-item failure
propagates), and the requested window has no effect: two calls with
different windows over the same cache agree. -/
theorem get_events_maps_cache_ignores_window (e : GrocyCalendarEntity)
    (nowT sd1 ed1 sd2 ed2 : DateTime) (l : List (Option Item))
    (h : e.coordinatorData e.key = some l) :
    e.async_get_events nowT sd1 ed1 =
      (l.filter fun i => i.isSome).mapM (fun i => GrocyCalendarEvent nowT i e.key) ∧
    e.async_get_events nowT sd1 ed1 = e.async_get_events nowT sd2 ed2 := by
  refine ⟨?_, rfl⟩
  unfold GrocyCalendarEntity.async_get_events
  rw [h]
  cases l with
  | nil => rfl
  | cons x xs => rfl

/-- Witness for C8 on a concrete adapter whose cache holds one null and
one task item. -/
theorem get_events_maps_cache_ignores_window_witness :
    (GrocyCalendarEntity.mk
        (fun _ => some [Option.none, some (.task 4 "Shop" Option.none (some 10))]) "tasks").coordinatorData
        "tasks" = some [Option.none, some (.task 4 "Shop" Option.none (some 10))] ∧
    ((GrocyCalendarEntity.mk
        (fun _ => some [Option.none, some (.task 4 "Shop" Option.none (some 10))]) "tasks").async_get_events
        ⟨0, true⟩ ⟨0, true⟩ ⟨60, true⟩ =
      (([Option.none, some (.task 4 "Shop" Option.none (some 10))].filter
          fun i => i.isSome).mapM
        (fun i => GrocyCalendarEvent ⟨0, true⟩ i "tasks")) ∧
    (GrocyCalendarEntity.mk
        (fun _ => some [Option.none, some (.task 4 "Shop" Option.none (some 10))]) "tasks").async_get_events
        ⟨0, true⟩ ⟨0, true⟩ ⟨60, true⟩ =
      (GrocyCalendarEntity.mk
        (fun _ => some [Option.none, some (.task 4 "Shop" Option.none (some 10))]) "tasks").async_get_events
        ⟨0, true⟩ ⟨500, true⟩ ⟨900, true⟩) :=
  ⟨rfl, get_events_maps_cache_ignores_window
    (GrocyCalendarEntity.mk
      (fun _ => some [Option.none, some (.task 4 "Shop" Option.none (some 10))]) "tasks")
    ⟨0, true⟩ ⟨0, true⟩ ⟨60, true⟩ ⟨500, true⟩ ⟨900, true⟩
    [Option.none, some (.task 4 "Shop" Option.none (some 10))] rfl⟩

end Grocy
